import Mathlib

/-!
Shallow embedding of the storage layer of the zeepubsbot repository
(`src/data/database_connection.py` and `src/data/database_config.py`),
with theorems settling the specified properties of that layer.

The SQLite engine is modelled at the level at which the source manipulates
it: a connection is a pair of database states, the durable (committed)
state and the in-transaction (current) state; `cursor.execute` transforms
the current state and may fail (raise), `conn.commit()` makes the current
state durable, `conn.rollback()` discards uncommitted work, and a failing
statement leaves the state unchanged (statement-level atomicity of the
engine).  Python exceptions are modelled with `Option`/`Except`; an
`Except` error value carries the connection state at the moment of the
raise, so that what a failed run did and did not persist is observable.
-/

namespace Zeepubs

/-- A live connection to the store (`sqlite3.Connection`): the durable
state and the state including uncommitted work. -/
structure Session (σ : Type) where
  committed : σ
  current : σ
deriving Repr, DecidableEq

/-- Models `conn.commit()`: the uncommitted work becomes durable. -/
def commitS {σ : Type} (s : Session σ) : Session σ :=
  { committed := s.current, current := s.current }

/-- Models `conn.rollback()`, and also the discarding of uncommitted work
when a connection is closed without committing. -/
def rollbackS {σ : Type} (s : Session σ) : Session σ :=
  { committed := s.committed, current := s.committed }

/-- Run a list of operations in order on an engine state, stopping at the
first failing statement (`cursor.execute` raising); the error value is the
state reached before the failing statement.  This is the loop body of
`DatabaseConnection.execute_transaction` (database_connection.py:257-261). -/
def runOps {σ Op : Type} (exec : Op → σ → Option σ) : List Op → σ → Except σ σ
  | [], d => .ok d
  | op :: rest, d =>
    match exec op d with
    | some d2 => runOps exec rest d2
    | none => .error d

/-- `DatabaseConnection.execute_transaction` (database_connection.py:247-276):
`BEGIN TRANSACTION`, execute every listed operation in order; on success
`conn.commit()` and return `True`; on any failure `conn.rollback()` and
return `False` (the inner handler rolls back and re-raises, the outer
handler catches and returns `False`). -/
def executeTransaction {σ Op : Type} (exec : Op → σ → Option σ) (s : Session σ)
    (ops : List Op) : Session σ × Bool :=
  match runOps exec ops s.current with
  | .ok d => (commitS { s with current := d }, true)
  | .error _ => (rollbackS s, false)

/-- `DatabaseConnection.execute_query` (database_connection.py:192-217):
execute one statement, fetch all rows and return them; there is no commit.
On failure the connection is evicted and closed by `get_connection`
(uncommitted work on it is discarded) and the error propagates (`none`). -/
def executeQuery {σ Op ρ : Type} (execR : Op → σ → Option (σ × ρ)) (s : Session σ)
    (op : Op) : Session σ × Option ρ :=
  match execR op s.current with
  | some (d, rows) => ({ s with current := d }, some rows)
  | none => (rollbackS s, none)

/-- One SQL statement of the kinds issued by the storage layer, translated
from the literal SQL text in `database_config.py`.  Column lists and
constraint bodies affect no verified claim and are not modelled; object
identity, `IF NOT EXISTS` guards and the table an index or trigger is
declared on are. -/
inductive SqlStmt : Type
  | createTable (name : String) (ifNotExists : Bool)
  | createIndex (name : String) (tableName : String) (ifNotExists : Bool)
  | createTrigger (name : String) (tableName : String) (ifNotExists : Bool)
  | insertVersion (version : Nat) (description : String)
  | pragmaSet (name : String) (value : String)
deriving Repr, DecidableEq

/-- The schema-object name a statement creates (for `insertVersion` the
version number, for `pragmaSet` the pragma key). -/
def SqlStmt.objName : SqlStmt → String
  | .createTable n _ => n
  | .createIndex n _ _ => n
  | .createTrigger n _ _ => n
  | .insertVersion v _ => toString v
  | .pragmaSet n _ => n

/-- The persisted database state this layer observes: schema objects,
recorded migration versions with an abstract `applied_at` clock, the row
counts read by `get_database_stats`, engine page statistics, and the
answer of `PRAGMA integrity_check`. -/
structure DB where
  tables : List String
  indexes : List String
  triggers : List String
  versionRows : List (Nat × Nat)
  clock : Nat
  booksRows : Nat
  statsRows : Nat
  pageCount : Nat
  pageSize : Nat
  integrity : String
deriving Repr, DecidableEq

/-- A fresh, healthy, empty store. -/
def emptyDB : DB :=
  { tables := [], indexes := [], triggers := [], versionRows := [], clock := 0,
    booksRows := 0, statsRows := 0, pageCount := 1, pageSize := 4096,
    integrity := "ok" }

/-- Engine semantics of one statement; `none` models the statement raising.
`CREATE ... IF NOT EXISTS` on an existing object is a no-op; creating an
existing object without the guard, creating an index or trigger on a
missing table, and inserting a duplicate `schema_version` primary key all
raise.  A failed statement changes nothing (engine statement atomicity). -/
def execSql : SqlStmt → DB → Option DB
  | .createTable n ine, db =>
    if n ∈ db.tables then (if ine then some db else none)
    else some { db with tables := db.tables ++ [n] }
  | .createIndex n t ine, db =>
    if n ∈ db.indexes then (if ine then some db else none)
    else if t ∈ db.tables then some { db with indexes := db.indexes ++ [n] }
    else none
  | .createTrigger n t ine, db =>
    if n ∈ db.triggers then (if ine then some db else none)
    else if t ∈ db.tables then some { db with triggers := db.triggers ++ [n] }
    else none
  | .insertVersion v _, db =>
    if "schema_version" ∈ db.tables then
      if v ∈ db.versionRows.map Prod.fst then none
      else some { db with versionRows := db.versionRows ++ [(v, db.clock)],
                          clock := db.clock + 1 }
    else none
  | .pragmaSet _ _, db => some db

/-- `SELECT MAX(version) FROM schema_version` combined with the source's
`result[0] if result[0] else 0` (database_connection.py:73-75): the NULL
produced by an empty table becomes 0. -/
def maxVersion (db : DB) : Nat := db.versionRows.foldl (fun a p => max a p.1) 0

namespace DatabaseSchema

/-- `DatabaseSchema.get_tables_definition` (database_config.py:57-63),
in source order. -/
def getTablesDefinition : List SqlStmt :=
  [ .createTable "books" true,
    .createTable "book_stats" true,
    .createTable "user_preferences" true ]

/-- `DatabaseSchema.get_indexes_definition` (database_config.py:129-151),
in source order. -/
def getIndexesDefinition : List SqlStmt :=
  [ .createIndex "idx_books_book_id" "books" true,
    .createIndex "idx_books_title" "books" true,
    .createIndex "idx_books_author" "books" true,
    .createIndex "idx_books_language" "books" true,
    .createIndex "idx_books_type" "books" true,
    .createIndex "idx_books_created_at" "books" true,
    .createIndex "idx_books_title_author" "books" true,
    .createIndex "idx_books_language_type" "books" true,
    .createIndex "idx_book_stats_book_id" "book_stats" true,
    .createIndex "idx_book_stats_downloads" "book_stats" true,
    .createIndex "idx_book_stats_last_accessed" "book_stats" true,
    .createIndex "idx_user_preferences_user_id" "user_preferences" true ]

/-- `DatabaseSchema.get_triggers_definition` (database_config.py:154-189),
in source order. -/
def getTriggersDefinition : List SqlStmt :=
  [ .createTrigger "trigger_books_updated_at" "books" true,
    .createTrigger "trigger_user_preferences_updated_at" "user_preferences" true,
    .createTrigger "trigger_create_book_stats" "books" true ]

end DatabaseSchema

namespace DatabaseMigrator

/-- `DatabaseMigrator.get_schema_version_table` (database_config.py:231-240). -/
def getSchemaVersionTable : SqlStmt := .createTable "schema_version" true

/-- `DatabaseMigrator._migration_v1_initial_schema` (database_config.py:208-213):
the books table plus the first six index definitions. -/
def migrationV1 : List SqlStmt :=
  SqlStmt.createTable "books" true :: DatabaseSchema.getIndexesDefinition.take 6

/-- `DatabaseMigrator._migration_v2_add_stats_table` (database_config.py:215-221):
the stats table, index definitions 6..8, and trigger definition 2. -/
def migrationV2 : List SqlStmt :=
  SqlStmt.createTable "book_stats" true ::
    ((DatabaseSchema.getIndexesDefinition.drop 6).take 3 ++
      [DatabaseSchema.getTriggersDefinition.getD 2 (.pragmaSet "" "")])

/-- `DatabaseMigrator._migration_v3_add_user_preferences` (database_config.py:223-229):
the preferences table, the last index definition, and trigger definitions 0..1. -/
def migrationV3 : List SqlStmt :=
  SqlStmt.createTable "user_preferences" true ::
    (DatabaseSchema.getIndexesDefinition.getD 11 (.pragmaSet "" "") ::
      DatabaseSchema.getTriggersDefinition.take 2)

/-- `DatabaseMigrator.get_migrations` (database_config.py:200-206): the
migration dictionary, whose Python iteration order is insertion order
1, 2, 3. -/
def getMigrations : List (Nat × List SqlStmt) :=
  [(1, migrationV1), (2, migrationV2), (3, migrationV3)]

end DatabaseMigrator

/-- `DatabaseConstants.SQLITE_PRAGMA_SETTINGS` (database_config.py:295-302)
as applied by `_setup_connection_settings` (database_connection.py:48-61). -/
def pragmaStmts : List SqlStmt :=
  [ .pragmaSet "journal_mode" "WAL",
    .pragmaSet "synchronous" "NORMAL",
    .pragmaSet "cache_size" "-64000",
    .pragmaSet "temp_store" "MEMORY",
    .pragmaSet "mmap_size" "268435456",
    .pragmaSet "foreign_keys" "ON" ]

/-- `cursor.execute` of one statement on a live connection: on success the
uncommitted state advances; on failure the statement raises and the error
value carries the connection exactly as it was. -/
def execStmtS (s : Session DB) (st : SqlStmt) : Except (Session DB) (Session DB) :=
  match execSql st s.current with
  | some d => .ok { s with current := d }
  | none => .error s

/-- Execute a list of statements in order, stopping at the first failure. -/
def execStmtsS (s : Session DB) : List SqlStmt → Except (Session DB) (Session DB)
  | [] => .ok s
  | st :: rest =>
    match execSql st s.current with
    | some d => execStmtsS { s with current := d } rest
    | none => .error s

/-- One iteration of the migration loop of
`DatabaseConnection._run_migrations` (database_connection.py:79-90): if
the entry's version exceeds `current_version`, execute its commands then
insert its version record; otherwise do nothing.  No commit happens
here. -/
def migStep (cur v : Nat) (cmds : List SqlStmt) (s : Session DB) :
    Except (Session DB) (Session DB) :=
  if v > cur then
    match execStmtsS s cmds with
    | .error e => .error e
    | .ok s2 => execStmtS s2 (.insertVersion v ("Migration v" ++ toString v))
  else .ok s

/-- The migration loop of `_run_migrations` (database_connection.py:79-90):
`migStep` for every dictionary entry in order, stopping at the first
failure. -/
def migsLoop (cur : Nat) : List (Nat × List SqlStmt) → Session DB →
    Except (Session DB) (Session DB)
  | [], s => .ok s
  | (v, cmds) :: rest, s =>
    match migStep cur v cmds s with
    | .error e => .error e
    | .ok s2 => migsLoop cur rest s2

/-- The part of `DatabaseConnection._run_migrations` after the version
table is ensured (database_connection.py:72-92): read the current maximum
version (the `SELECT MAX` cannot fail since the table was just ensured),
run every pending step, then issue the single `conn.commit()` that follows
the loop (line 92). -/
def migsLoopCommit (migs : List (Nat × List SqlStmt)) (s1 : Session DB) :
    Except (Session DB) (Session DB) :=
  match migsLoop (maxVersion s1.current) migs s1 with
  | .error e => .error e
  | .ok s2 => .ok (commitS s2)

/-- `DatabaseConnection._run_migrations` (database_connection.py:63-97),
parametrised by the migration dictionary (the source always passes
`DatabaseMigrator.get_migrations()`): ensure the version table exists,
then `migsLoopCommit`.  Any statement failure re-raises with nothing
committed by this method. -/
def runMigrationsList (migs : List (Nat × List SqlStmt)) (s : Session DB) :
    Except (Session DB) (Session DB) :=
  match execStmtS s DatabaseMigrator.getSchemaVersionTable with
  | .error e => .error e
  | .ok s1 => migsLoopCommit migs s1

/-- `_run_migrations` with the source's own migration dictionary. -/
def runMigrations (s : Session DB) : Except (Session DB) (Session DB) :=
  runMigrationsList DatabaseMigrator.getMigrations s

/-- `DatabaseConnection._setup_connection_settings` (database_connection.py:48-61). -/
def setupConnectionSettings (s : Session DB) : Except (Session DB) (Session DB) :=
  execStmtsS s pragmaStmts

/-- `DatabaseConnection._create_indexes` (database_connection.py:99-112):
every registry index definition, then commit. -/
def createIndexes (s : Session DB) : Except (Session DB) (Session DB) :=
  match execStmtsS s DatabaseSchema.getIndexesDefinition with
  | .ok s2 => .ok (commitS s2)
  | .error e => .error e

/-- `DatabaseConnection._create_triggers` (database_connection.py:114-127):
every registry trigger definition, then commit. -/
def createTriggers (s : Session DB) : Except (Session DB) (Session DB) :=
  match execStmtsS s DatabaseSchema.getTriggersDefinition with
  | .ok s2 => .ok (commitS s2)
  | .error e => .error e

/-- `DatabaseConnection._verify_database_integrity`
(database_connection.py:129-143): `PRAGMA integrity_check`; any answer
other than "ok" raises. -/
def verifyDatabaseIntegrity (s : Session DB) : Except (Session DB) (Session DB) :=
  if s.current.integrity = "ok" then .ok s else .error s

/-- The tail of `_initialize_database` after index creation
(database_connection.py:39-40): triggers, then the integrity check. -/
def initAfterIndexes (s3 : Session DB) : Except (Session DB) (Session DB) :=
  match createTriggers s3 with
  | .error e => .error e
  | .ok s4 => verifyDatabaseIntegrity s4

/-- The tail of `_initialize_database` after the migrations
(database_connection.py:38-40): indexes, triggers, integrity check. -/
def initAfterMigrations (s2 : Session DB) : Except (Session DB) (Session DB) :=
  match createIndexes s2 with
  | .error e => .error e
  | .ok s3 => initAfterIndexes s3

/-- The tail of `_initialize_database` after the connection settings
(database_connection.py:37-40): migrations, indexes, triggers, integrity
check. -/
def initAfterSetup (s1 : Session DB) : Except (Session DB) (Session DB) :=
  match runMigrations s1 with
  | .error e => .error e
  | .ok s2 => initAfterMigrations s2

/-- `DatabaseConnection._initialize_database` (database_connection.py:32-46):
settings, migrations, indexes, triggers, integrity check, in that order on
one connection; any failure re-raises (as `RuntimeError`). -/
def initDatabase (db : DB) : Except (Session DB) (Session DB) :=
  match setupConnectionSettings { committed := db, current := db } with
  | .error e => .error e
  | .ok s1 => initAfterSetup s1

/-- The constructed storage manager.  `DatabaseConnection.__init__`
(database_connection.py:20-30) runs `_initialize_database` and only
returns an instance — through which `execute_query`, `execute_command`
and `execute_transaction` become reachable — if it did not raise. -/
structure DatabaseManager where
  session : Session DB
deriving Repr, DecidableEq

/-- Construction of the storage manager: `none` when `__init__` raised. -/
def mkDatabaseConnection (db : DB) : Option DatabaseManager :=
  match initDatabase db with
  | .ok s => some { session := s }
  | .error _ => none

/-- The per-thread connection registry `self._connections`, plus a counter
producing fresh connection identities (each `sqlite3.connect` call in
`_create_connection` returns a distinct object). -/
structure Registry where
  conns : List (Nat × Nat)
  nextId : Nat
deriving Repr, DecidableEq

/-- The thread identifiers present in the registry. -/
def Registry.keys (r : Registry) : List Nat := r.conns.map Prod.fst

/-- Well-formedness of the registry: one entry per thread, pairwise
distinct connection identities, and the freshness counter dominates every
issued identity. -/
def Registry.WF (r : Registry) : Prop :=
  r.keys.Nodup ∧ (r.conns.map Prod.snd).Nodup ∧ ∀ p ∈ r.conns, p.2 < r.nextId

/-- The lock-protected block of `DatabaseConnection.get_connection`
(database_connection.py:150-157): look the calling thread up; if absent,
create a connection (`_create_connection`, a fresh identity) and store it
under the thread identifier; return the entry. -/
def getConnection (r : Registry) (tid : Nat) : Nat × Registry :=
  match r.conns.lookup tid with
  | some c => (c, r)
  | none => (r.nextId, { conns := (tid, r.nextId) :: r.conns, nextId := r.nextId + 1 })

/-- The exception handler of `get_connection` (database_connection.py:159-169):
close the thread's connection and delete its registry entry. -/
def evict (r : Registry) (tid : Nat) : Registry :=
  { conns := r.conns.filter (fun p => p.1 != tid), nextId := r.nextId }

/-- `get_connection` used as a context manager around a body: acquire, run
the body; if the body raises (`none`), evict the thread's connection and
propagate the error. -/
def withConnection {α : Type} (r : Registry) (tid : Nat) (body : Nat → Option α) :
    Registry × Option α :=
  match getConnection r tid with
  | (c, r1) =>
    match body c with
    | some a => (r1, some a)
    | none => (evict r1 tid, none)

/-- Errors raised inside the maintenance toolkit. -/
abbrev DbError := String

/-- Did a Python `try` body complete without raising? -/
def exceptOk {ε α : Type} : Except ε α → Bool
  | .ok _ => true
  | .error _ => false

namespace DatabaseOptimizer

/-- `DatabaseOptimizer.get_optimization_queries` (database_config.py:246-254). -/
def getOptimizationQueries : List String :=
  ["PRAGMA optimize", "ANALYZE", "VACUUM", "REINDEX"]

/-- `DatabaseOptimizer.get_maintenance_queries` (database_config.py:256-272);
the first query prunes stale statistics rows. -/
def getMaintenanceQueries : List String :=
  ["DELETE FROM book_stats WHERE last_accessed < datetime(now, -1 year) AND downloads = 0",
   "ANALYZE books", "ANALYZE book_stats", "ANALYZE user_preferences"]

end DatabaseOptimizer

/-- Sequencing of a list of fallible steps, stopping at the first raise
(the body of a query loop with no per-statement handler). -/
def runQueries (execQ : String → Except DbError Unit) : List String → Except DbError Unit
  | [] => .ok ()
  | q :: rest =>
    match execQ q with
    | .ok _ => runQueries execQ rest
    | .error e => .error e

/-- `DatabaseConnection.backup_database` (database_connection.py:338-355):
create the target directory, then copy the live store into the target
file; any raise is caught and `False` returned, a completed copy returns
`True`.  The two fallible external steps are parameters. -/
def backupDatabase (mkdirStep copyStep : Except DbError Unit) : Except DbError Bool :=
  match mkdirStep with
  | .error _ => .ok false
  | .ok _ =>
    match copyStep with
    | .ok _ => .ok true
    | .error _ => .ok false

/-- `DatabaseConnection.optimize_database` (database_connection.py:357-374):
run every optimization query in order; any raise is caught and `False`
returned, otherwise `True`. -/
def optimizeDatabase (execQ : String → Except DbError Unit) : Except DbError Bool :=
  match runQueries execQ DatabaseOptimizer.getOptimizationQueries with
  | .ok _ => .ok true
  | .error _ => .ok false

/-- The inner loop of `run_maintenance` (database_connection.py:385-391):
each query is executed and committed inside its own `try`; a failing query
is logged and skipped and the loop continues with the next query. -/
def maintenanceLoop (execQ : String → DB → Option DB) :
    List String → Session DB → Session DB
  | [], s => s
  | q :: rest, s =>
    match execQ q s.current with
    | some d => maintenanceLoop execQ rest (commitS { s with current := d })
    | none => maintenanceLoop execQ rest s

/-- `DatabaseConnection.run_maintenance` (database_connection.py:376-398):
acquire a connection (a raise there is caught, returning `False`), then
run the maintenance loop over all maintenance queries and return `True`. -/
def runMaintenance (acquireStep : Except DbError Unit) (execQ : String → DB → Option DB)
    (s : Session DB) : Session DB × Except DbError Bool :=
  match acquireStep with
  | .error _ => (s, .ok false)
  | .ok _ => (maintenanceLoop execQ DatabaseOptimizer.getMaintenanceQueries s, .ok true)

/-- The dictionary returned by `get_database_stats` on success.  The source
key `db_size_mb` holds `page_count * page_size` rescaled to megabytes and
rounded for display; the byte product is modelled. -/
structure DbStats where
  booksCount : Nat
  dbSizeBytes : Nat
  schemaVersion : Nat
  pageCount : Nat
  pageSize : Nat
  statsRecords : Option Nat
deriving Repr, DecidableEq

/-- `DatabaseConnection.get_database_stats` (database_connection.py:289-336);
`none` models the `except` branch returning the empty dictionary.  The
`COUNT` on `books` and the `MAX` on `schema_version` raise when the table
is absent; the `sqlite_master` probe and the pragmas never raise. -/
def getDatabaseStats (db : DB) : Option DbStats :=
  if "books" ∈ db.tables then
    if "schema_version" ∈ db.tables then
      some { booksCount := db.booksRows,
             dbSizeBytes := db.pageCount * db.pageSize,
             schemaVersion := maxVersion db,
             pageCount := db.pageCount,
             pageSize := db.pageSize,
             statsRecords := if "book_stats" ∈ db.tables then some db.statsRows else none }
    else none
  else none

/-- `DatabaseConnection.get_schema_version` (database_connection.py:400-411):
on any raise (here: a missing version table) the handler returns 0; an
empty version table also yields 0 via `result[0] if result[0] else 0`. -/
def getSchemaVersion (db : DB) : Nat :=
  if "schema_version" ∈ db.tables then maxVersion db else 0

/-- Events of `get_connection` and `execute_query` in program order, for
the lock-scope analysis of the connection registry. -/
inductive DbEvent : Type
  | lockAcquire
  | lockRelease
  | registryProbe
  | registryInsert
  | connectOp
  | pragmaOp
  | queryOp
  | fetchOp
deriving Repr, DecidableEq, BEq

/-- `DatabaseConnection._create_connection` (database_connection.py:171-190):
`sqlite3.connect` followed by pragma configuration, both physical I/O. -/
def createConnectionTrace : List DbEvent := [.connectOp, .pragmaOp]

/-- The lock-protected block of `get_connection`
(database_connection.py:150-157): acquire the lock, probe the registry,
on a miss create and insert a connection, read the entry back, release
the lock. -/
def getConnectionTrace (cached : Bool) : List DbEvent :=
  [DbEvent.lockAcquire, DbEvent.registryProbe] ++
    (if cached then [] else createConnectionTrace ++ [DbEvent.registryInsert]) ++
    [DbEvent.registryProbe, DbEvent.lockRelease]

/-- `execute_query` (database_connection.py:192-217): acquire a connection,
then execute the statement and fetch the rows outside the lock. -/
def executeQueryTrace (cached : Bool) : List DbEvent :=
  getConnectionTrace cached ++ [DbEvent.queryOp, DbEvent.fetchOp]

/-- The events of a trace that occur while the lock is held (depth > 0). -/
def underLock : List DbEvent → Nat → List DbEvent
  | [], _ => []
  | e :: rest, d =>
    match e with
    | .lockAcquire => underLock rest (d + 1)
    | .lockRelease => underLock rest (d - 1)
    | ev => (if 0 < d then [ev] else []) ++ underLock rest d

/-- Physical-I/O events. -/
def isIoEvent : DbEvent → Bool
  | .connectOp => true
  | .pragmaOp => true
  | .queryOp => true
  | .fetchOp => true
  | _ => false

/-- The store produced by running the full initialization on `emptyDB`
(object order follows the order of creation: migration v1, v2, v3, then
the two remaining indexes added by `_create_indexes`). -/
def migratedDB : DB :=
  { tables := ["schema_version", "books", "book_stats", "user_preferences"],
    indexes := ["idx_books_book_id", "idx_books_title", "idx_books_author",
                "idx_books_language", "idx_books_type", "idx_books_created_at",
                "idx_books_title_author", "idx_books_language_type",
                "idx_book_stats_book_id", "idx_user_preferences_user_id",
                "idx_book_stats_downloads", "idx_book_stats_last_accessed"],
    triggers := ["trigger_create_book_stats", "trigger_books_updated_at",
                 "trigger_user_preferences_updated_at"],
    versionRows := [(1, 0), (2, 1), (3, 2)],
    clock := 3, booksRows := 0, statsRows := 0, pageCount := 1, pageSize := 4096,
    integrity := "ok" }

/-- A migration dictionary whose first step fully succeeds and whose second
step fails (an index on a missing table), used to settle where
`_run_migrations` places its commit. -/
def cexMigs : List (Nat × List SqlStmt) :=
  [(1, [.createTable "t1" false]), (2, [.createIndex "ix" "missing" false])]

/-- The uncommitted connection state at the moment the second `cexMigs`
step fails: the version table, the first step's table and its version
record are all present — but only in uncommitted form. -/
def cexMidDB : DB :=
  { emptyDB with tables := ["schema_version", "t1"], versionRows := [(1, 0)], clock := 1 }

/-- A batch whose statements all succeed. -/
def txOpsGood : List SqlStmt := [.createTable "t" false]

/-- The store after committing `txOpsGood` on `emptyDB`. -/
def txGoodDB : DB := { emptyDB with tables := ["t"] }

/-- A batch whose first statement succeeds and whose second fails. -/
def txOpsBad : List SqlStmt :=
  [.createTable "t" false, .createIndex "i" "missing" false]

/-- The connection a run ends with, whether it completed (`ok`) or raised
(`error`): the error value of the session-passing runners carries the
connection at the moment of the raise. -/
def resSession (x : Except (Session DB) (Session DB)) : Session DB :=
  match x with
  | .ok s => s
  | .error s => s

/-- One `cursor.execute` never touches the durable state. -/
theorem execStmtS_committed (s : Session DB) (st : SqlStmt) :
    (resSession (execStmtS s st)).committed = s.committed := by
  unfold execStmtS
  cases hx : execSql st s.current with
  | some d => rfl
  | none => rfl

/-- Executing a statement list never touches the durable state: only
`commitS` does. -/
theorem execStmtsS_committed (l : List SqlStmt) : ∀ s : Session DB,
    (resSession (execStmtsS s l)).committed = s.committed := by
  induction l with
  | nil => intro s; rfl
  | cons st rest ih =>
    intro s
    unfold execStmtsS
    cases hx : execSql st s.current with
    | some d => exact ih { s with current := d }
    | none => rfl

/-- One migration step never touches the durable state. -/
theorem migStep_committed (cur v : Nat) (cmds : List SqlStmt) (s : Session DB) :
    (resSession (migStep cur v cmds s)).committed = s.committed := by
  unfold migStep
  by_cases hv : v > cur
  · rw [if_pos hv]
    cases hcmds : execStmtsS s cmds with
    | error e =>
      have h1 := execStmtsS_committed cmds s
      rw [hcmds] at h1
      exact h1
    | ok s2 =>
      have h1 := execStmtsS_committed cmds s
      rw [hcmds] at h1
      exact (execStmtS_committed s2 (.insertVersion v ("Migration v" ++ toString v))).trans h1
  · rw [if_neg hv]
    rfl

/-- The migration loop never touches the durable state. -/
theorem migsLoop_committed (migs : List (Nat × List SqlStmt)) :
    ∀ (cur : Nat) (s : Session DB),
      (resSession (migsLoop cur migs s)).committed = s.committed := by
  induction migs with
  | nil => intro cur s; rfl
  | cons mig rest ih =>
    intro cur s
    obtain ⟨v, cmds⟩ := mig
    unfold migsLoop
    cases hstep : migStep cur v cmds s with
    | error e =>
      have h1 := migStep_committed cur v cmds s
      rw [hstep] at h1
      exact h1
    | ok s2 =>
      have h1 := migStep_committed cur v cmds s
      rw [hstep] at h1
      exact (ih cur s2).trans h1

/-- The store produced by `_run_migrations` alone on `emptyDB` (the two
indexes on download counts are only added later by `_create_indexes`). -/
def migOnlyDB : DB :=
  { migratedDB with
    indexes := ["idx_books_book_id", "idx_books_title", "idx_books_author",
                "idx_books_language", "idx_books_type", "idx_books_created_at",
                "idx_books_title_author", "idx_books_language_type",
                "idx_book_stats_book_id", "idx_user_preferences_user_id"] }

/-- Claim C1: `execute_transaction` runs the whole batch in order inside one
explicit transaction: if every listed operation succeeds the batch is
committed (the sequentially composed state becomes both current and
durable) and the call returns success; if any operation fails the batch is
rolled back and the call returns failure with the durable store exactly as
it was before the call — no partial effects. -/
theorem executeTransaction_atomic {σ Op : Type} (exec : Op → σ → Option σ)
    (s : Session σ) (ops : List Op) :
    (∀ d, runOps exec ops s.current = .ok d →
      executeTransaction exec s ops = ({ committed := d, current := d }, true)) ∧
    (∀ d, runOps exec ops s.current = .error d →
      executeTransaction exec s ops =
        ({ committed := s.committed, current := s.committed }, false)) := by
  constructor
  · intro d h
    unfold executeTransaction
    rw [h]
    rfl
  · intro d h
    unfold executeTransaction
    rw [h]
    rfl

/-- Witness for C1 at concrete inputs: a succeeding batch is committed, and
a batch whose second statement fails returns `false` and leaves the
durable store untouched. -/
theorem executeTransaction_atomic_witness :
    executeTransaction execSql { committed := emptyDB, current := emptyDB } txOpsGood =
      ({ committed := txGoodDB, current := txGoodDB }, true) ∧
    executeTransaction execSql { committed := emptyDB, current := emptyDB } txOpsBad =
      ({ committed := emptyDB, current := emptyDB }, false) :=
  ⟨(executeTransaction_atomic execSql { committed := emptyDB, current := emptyDB }
      txOpsGood).1 txGoodDB (by rfl),
   (executeTransaction_atomic execSql { committed := emptyDB, current := emptyDB }
      txOpsBad).2 txGoodDB (by rfl)⟩

/-- Claim C2 counterexample: in `cexMigs` the first pending step fully
succeeds and the second fails, and the run raises as the claim says — but
the durable store of the raising connection is still `emptyDB`: the first
step's table and version record exist only uncommitted, so no transaction
was committed after the first step and before the second, contrary to the
claim. -/
theorem runMigrations_per_step_commit_cex :
    runMigrationsList cexMigs { committed := emptyDB, current := emptyDB } =
      .error { committed := emptyDB, current := cexMidDB } ∧
    cexMidDB.tables.contains "t1" = true ∧
    cexMidDB.versionRows = [(1, 0)] ∧
    emptyDB.tables.contains "t1" = false ∧
    emptyDB.versionRows = [] :=
  ⟨rfl, rfl, rfl, rfl, rfl⟩

/-- Claim C2 (amended): `_run_migrations` executes each pending step's DDL
statements and version record in order, but commits only once, after the
whole loop: when the run succeeds everything becomes durable together
(the final durable state equals the final current state); if any statement
of any step fails, a fatal error is raised and the durable store is
exactly what it was when the method began — no step, complete or partial,
is ever committed by a failed run. -/
theorem runMigrations_single_batch_commit (migs : List (Nat × List SqlStmt))
    (s : Session DB) :
    (∀ s2, runMigrationsList migs s = .ok s2 → s2.committed = s2.current) ∧
    (∀ e, runMigrationsList migs s = .error e → e.committed = s.committed) := by
  constructor
  · intro s2 h
    unfold runMigrationsList at h
    cases h0 : execStmtS s DatabaseMigrator.getSchemaVersionTable with
    | error e0 =>
      rw [h0] at h
      simp at h
    | ok s1 =>
      rw [h0] at h
      simp only [] at h
      unfold migsLoopCommit at h
      cases h1 : migsLoop (maxVersion s1.current) migs s1 with
      | error e1 =>
        rw [h1] at h
        simp at h
      | ok sl =>
        rw [h1] at h
        simp at h
        rw [← h]
        rfl
  · intro e h
    have hc0 := execStmtS_committed s DatabaseMigrator.getSchemaVersionTable
    unfold runMigrationsList at h
    cases h0 : execStmtS s DatabaseMigrator.getSchemaVersionTable with
    | error e0 =>
      rw [h0] at h
      rw [h0] at hc0
      simp at h
      rw [← h]
      exact hc0
    | ok s1 =>
      rw [h0] at h
      rw [h0] at hc0
      simp only [] at h
      unfold migsLoopCommit at h
      have hc1 := migsLoop_committed migs (maxVersion s1.current) s1
      cases h1 : migsLoop (maxVersion s1.current) migs s1 with
      | error e1 =>
        rw [h1] at h
        rw [h1] at hc1
        simp at h
        rw [← h]
        exact hc1.trans hc0
      | ok sl =>
        rw [h1] at h
        simp at h

/-- Witness for C2's amended claim at concrete inputs: the successful full
run of the source's migrations on an empty store ends with durable state
equal to current state, and the failed `cexMigs` run leaves the durable
store equal to the initial one. -/
theorem runMigrations_single_batch_commit_witness :
    (Session.mk migOnlyDB migOnlyDB).committed = (Session.mk migOnlyDB migOnlyDB).current ∧
    (Session.mk emptyDB cexMidDB).committed = (Session.mk emptyDB emptyDB).committed :=
  ⟨(runMigrations_single_batch_commit DatabaseMigrator.getMigrations
      { committed := emptyDB, current := emptyDB }).1
      { committed := migOnlyDB, current := migOnlyDB } (by rfl),
   (runMigrations_single_batch_commit cexMigs
      { committed := emptyDB, current := emptyDB }).2
      { committed := emptyDB, current := cexMidDB } (by rfl)⟩

/-- Claim C3: the full initialization on an empty store records versions
1, 2, 3 (maximum 3) and creates every table, index and trigger declared by
the schema registry exactly once; re-running the full initialization
against the migrated store raises no error, changes nothing and leaves the
recorded version set unchanged. -/
theorem init_migrations_idempotent :
    initDatabase emptyDB = .ok { committed := migratedDB, current := migratedDB } ∧
    migratedDB.versionRows.map Prod.fst = [1, 2, 3] ∧
    maxVersion migratedDB = 3 ∧
    ((DatabaseSchema.getTablesDefinition.map SqlStmt.objName).all
      (fun n => migratedDB.tables.count n == 1)) = true ∧
    ((DatabaseSchema.getIndexesDefinition.map SqlStmt.objName).all
      (fun n => migratedDB.indexes.count n == 1)) = true ∧
    ((DatabaseSchema.getTriggersDefinition.map SqlStmt.objName).all
      (fun n => migratedDB.triggers.count n == 1)) = true ∧
    initDatabase migratedDB = .ok { committed := migratedDB, current := migratedDB } :=
  ⟨rfl, rfl, rfl, rfl, rfl, rfl, rfl⟩

/-- No statement changes the answer of the integrity check. -/
theorem execSql_integrity (st : SqlStmt) (db d : DB) (h : execSql st db = some d) :
    d.integrity = db.integrity := by
  cases st <;> unfold execSql at h <;> (repeat' split at h) <;> simp_all <;> rw [← h]

/-- One `cursor.execute` preserves the integrity answer of the connection's
current state. -/
theorem execStmtS_integrity (s : Session DB) (st : SqlStmt) :
    (resSession (execStmtS s st)).current.integrity = s.current.integrity := by
  unfold execStmtS
  cases hx : execSql st s.current with
  | some d => exact execSql_integrity st s.current d hx
  | none => rfl

/-- A statement list preserves the integrity answer. -/
theorem execStmtsS_integrity (l : List SqlStmt) : ∀ s : Session DB,
    (resSession (execStmtsS s l)).current.integrity = s.current.integrity := by
  induction l with
  | nil => intro s; rfl
  | cons st rest ih =>
    intro s
    unfold execStmtsS
    cases hx : execSql st s.current with
    | some d =>
      exact (ih { s with current := d }).trans (execSql_integrity st s.current d hx)
    | none => rfl

/-- One migration step preserves the integrity answer. -/
theorem migStep_integrity (cur v : Nat) (cmds : List SqlStmt) (s : Session DB) :
    (resSession (migStep cur v cmds s)).current.integrity = s.current.integrity := by
  unfold migStep
  by_cases hv : v > cur
  · rw [if_pos hv]
    cases hcmds : execStmtsS s cmds with
    | error e =>
      have h1 := execStmtsS_integrity cmds s
      rw [hcmds] at h1
      exact h1
    | ok s2 =>
      have h1 := execStmtsS_integrity cmds s
      rw [hcmds] at h1
      exact (execStmtS_integrity s2 (.insertVersion v ("Migration v" ++ toString v))).trans h1
  · rw [if_neg hv]
    rfl

/-- The migration loop preserves the integrity answer. -/
theorem migsLoop_integrity (migs : List (Nat × List SqlStmt)) :
    ∀ (cur : Nat) (s : Session DB),
      (resSession (migsLoop cur migs s)).current.integrity = s.current.integrity := by
  induction migs with
  | nil => intro cur s; rfl
  | cons mig rest ih =>
    intro cur s
    obtain ⟨v, cmds⟩ := mig
    unfold migsLoop
    cases hstep : migStep cur v cmds s with
    | error e =>
      have h1 := migStep_integrity cur v cmds s
      rw [hstep] at h1
      exact h1
    | ok s2 =>
      have h1 := migStep_integrity cur v cmds s
      rw [hstep] at h1
      exact (ih cur s2).trans h1

/-- The loop-and-commit part of `_run_migrations` preserves the integrity
answer. -/
theorem migsLoopCommit_integrity (migs : List (Nat × List SqlStmt)) (s1 : Session DB) :
    (resSession (migsLoopCommit migs s1)).current.integrity = s1.current.integrity := by
  unfold migsLoopCommit
  cases hl : migsLoop (maxVersion s1.current) migs s1 with
  | error e =>
    have h2 := migsLoop_integrity migs (maxVersion s1.current) s1
    rw [hl] at h2
    exact h2
  | ok s2 =>
    have h2 := migsLoop_integrity migs (maxVersion s1.current) s1
    rw [hl] at h2
    exact h2

/-- `_run_migrations` preserves the integrity answer. -/
theorem runMigrationsList_integrity (migs : List (Nat × List SqlStmt)) (s : Session DB) :
    (resSession (runMigrationsList migs s)).current.integrity = s.current.integrity := by
  unfold runMigrationsList
  cases h0 : execStmtS s DatabaseMigrator.getSchemaVersionTable with
  | error e =>
    have h1 := execStmtS_integrity s DatabaseMigrator.getSchemaVersionTable
    rw [h0] at h1
    exact h1
  | ok s1 =>
    have h1 := execStmtS_integrity s DatabaseMigrator.getSchemaVersionTable
    rw [h0] at h1
    exact (migsLoopCommit_integrity migs s1).trans h1

/-- `_create_indexes` preserves the integrity answer. -/
theorem createIndexes_integrity (s : Session DB) :
    (resSession (createIndexes s)).current.integrity = s.current.integrity := by
  unfold createIndexes
  cases hx : execStmtsS s DatabaseSchema.getIndexesDefinition with
  | error e =>
    have h1 := execStmtsS_integrity DatabaseSchema.getIndexesDefinition s
    rw [hx] at h1
    exact h1
  | ok s2 =>
    have h1 := execStmtsS_integrity DatabaseSchema.getIndexesDefinition s
    rw [hx] at h1
    exact h1

/-- `_create_triggers` preserves the integrity answer. -/
theorem createTriggers_integrity (s : Session DB) :
    (resSession (createTriggers s)).current.integrity = s.current.integrity := by
  unfold createTriggers
  cases hx : execStmtsS s DatabaseSchema.getTriggersDefinition with
  | error e =>
    have h1 := execStmtsS_integrity DatabaseSchema.getTriggersDefinition s
    rw [hx] at h1
    exact h1
  | ok s2 =>
    have h1 := execStmtsS_integrity DatabaseSchema.getTriggersDefinition s
    rw [hx] at h1
    exact h1

/-- Claim C6: when the startup integrity check answers anything but "ok",
`_initialize_database` raises and the storage manager instance is never
constructed, so the execution facade (query/command/transaction) never
becomes available; the corrupted store is reported, not repaired. -/
theorem integrity_failure_aborts_startup (db : DB) (h : db.integrity ≠ "ok") :
    exceptOk (initDatabase db) = false ∧ mkDatabaseConnection db = none := by
  have stage3 : ∀ s3 : Session DB, s3.current.integrity ≠ "ok" →
      exceptOk (initAfterIndexes s3) = false := by
    intro s3 h3bad
    unfold initAfterIndexes
    cases h3 : createTriggers s3 with
    | error e => rfl
    | ok s4 =>
      have i3 := createTriggers_integrity s3
      rw [h3] at i3
      have i3x : s4.current.integrity = s3.current.integrity := i3
      show exceptOk (verifyDatabaseIntegrity s4) = false
      unfold verifyDatabaseIntegrity
      rw [if_neg (by rw [i3x]; exact h3bad)]
      rfl
  have stage2 : ∀ s2 : Session DB, s2.current.integrity ≠ "ok" →
      exceptOk (initAfterMigrations s2) = false := by
    intro s2 h2bad
    unfold initAfterMigrations
    cases h2 : createIndexes s2 with
    | error e => rfl
    | ok s3 =>
      have i2 := createIndexes_integrity s2
      rw [h2] at i2
      have i2x : s3.current.integrity = s2.current.integrity := i2
      show exceptOk (initAfterIndexes s3) = false
      exact stage3 s3 (by rw [i2x]; exact h2bad)
  have stage1 : ∀ s1 : Session DB, s1.current.integrity ≠ "ok" →
      exceptOk (initAfterSetup s1) = false := by
    intro s1 h1bad
    unfold initAfterSetup
    cases h1 : runMigrations s1 with
    | error e => rfl
    | ok s2 =>
      have i1 := runMigrationsList_integrity DatabaseMigrator.getMigrations s1
      have i1x : runMigrations s1 =
          runMigrationsList DatabaseMigrator.getMigrations s1 := rfl
      rw [i1x] at h1
      rw [h1] at i1
      have i1y : s2.current.integrity = s1.current.integrity := i1
      show exceptOk (initAfterMigrations s2) = false
      exact stage2 s2 (by rw [i1y]; exact h1bad)
  have hmain : exceptOk (initDatabase db) = false := by
    unfold initDatabase
    cases h0 : setupConnectionSettings { committed := db, current := db } with
    | error e => rfl
    | ok s1 =>
      have i0 := execStmtsS_integrity pragmaStmts { committed := db, current := db }
      have i0x : setupConnectionSettings { committed := db, current := db } =
          execStmtsS { committed := db, current := db } pragmaStmts := rfl
      rw [i0x] at h0
      rw [h0] at i0
      have i0y : s1.current.integrity = db.integrity := i0
      show exceptOk (initAfterSetup s1) = false
      exact stage1 s1 (by rw [i0y]; exact h)
  refine ⟨hmain, ?_⟩
  unfold mkDatabaseConnection
  cases hI : initDatabase db with
  | ok s =>
    rw [hI] at hmain
    simp [exceptOk] at hmain
  | error e => rfl

/-- Witness for C6 at a concrete corrupted store. -/
theorem integrity_failure_aborts_startup_witness :
    exceptOk (initDatabase { emptyDB with integrity := "corrupt" }) = false ∧
    mkDatabaseConnection { emptyDB with integrity := "corrupt" } = none :=
  integrity_failure_aborts_startup { emptyDB with integrity := "corrupt" } (by decide)

/-- `lookup` misses exactly the thread identifiers absent from the map. -/
theorem lookup_eq_none_iff (l : List (Nat × Nat)) (t : Nat) :
    l.lookup t = none ↔ t ∉ l.map Prod.fst := by
  induction l with
  | nil => simp [List.lookup]
  | cons p rest ih =>
    obtain ⟨k, v⟩ := p
    by_cases hk : t = k
    · subst hk
      simp [List.lookup]
    · have hb : (t == k) = false := by
        simp [hk]
      simp [List.lookup, hb, ih]
      exact fun _ => hk

/-- A `lookup` hit is an entry of the map. -/
theorem lookup_mem (t c : Nat) : ∀ l : List (Nat × Nat),
    l.lookup t = some c → (t, c) ∈ l := by
  intro l
  induction l with
  | nil => intro h; simp [List.lookup] at h
  | cons p rest ih =>
    intro h
    obtain ⟨k, v⟩ := p
    by_cases hk : t = k
    · subst hk
      simp [List.lookup] at h
      rw [h]
      exact List.mem_cons_self _ _
    · have hb : (t == k) = false := by
        simp [hk]
      simp [List.lookup, hb] at h
      exact List.mem_cons_of_mem _ (ih h)

/-- A thread absent from the map owns no entry. -/
theorem countP_key_eq_zero (t : Nat) : ∀ l : List (Nat × Nat),
    t ∉ l.map Prod.fst → l.countP (fun p => p.1 == t) = 0 := by
  intro l
  induction l with
  | nil => intro _; rfl
  | cons p rest ih =>
    intro h
    rw [List.map_cons, List.mem_cons] at h
    push_neg at h
    rw [List.countP_cons, ih h.2]
    have : (p.1 == t) = false := by
      simp
      exact fun he => h.1 he.symm
    simp [this]

/-- With pairwise-distinct thread keys, no thread owns more than one entry. -/
theorem countP_key_le_one (t : Nat) : ∀ l : List (Nat × Nat),
    (l.map Prod.fst).Nodup → l.countP (fun p => p.1 == t) ≤ 1 := by
  intro l
  induction l with
  | nil => intro _; simp
  | cons p rest ih =>
    intro h
    rw [List.map_cons, List.nodup_cons] at h
    rw [List.countP_cons]
    by_cases hp : p.1 = t
    · subst hp
      rw [countP_key_eq_zero p.1 rest h.1]
      simp
    · have hb : (p.1 == t) = false := by simp [hp]
      rw [hb]
      simpa using ih h.2

/-- First acquisition by a thread with no registry entry: a fresh identity
is created and stored under the thread identifier. -/
theorem getConnection_fresh (r : Registry) (tid : Nat) (h : tid ∉ r.keys) :
    getConnection r tid =
      (r.nextId, { conns := (tid, r.nextId) :: r.conns, nextId := r.nextId + 1 }) := by
  unfold getConnection
  rw [(lookup_eq_none_iff r.conns tid).mpr h]

/-- Acquisition by a thread with a registry entry returns the cached
connection and changes nothing. -/
theorem getConnection_cached (r : Registry) (tid c : Nat)
    (h : r.conns.lookup tid = some c) : getConnection r tid = (c, r) := by
  unfold getConnection
  rw [h]

/-- Acquisition preserves registry well-formedness. -/
theorem getConnection_WF (r : Registry) (tid : Nat) (hwf : Registry.WF r) :
    Registry.WF (getConnection r tid).2 := by
  unfold getConnection
  cases hl : r.conns.lookup tid with
  | some c => exact hwf
  | none =>
    have hmem : tid ∉ r.conns.map Prod.fst := (lookup_eq_none_iff r.conns tid).mp hl
    obtain ⟨hk, hv, hb⟩ := hwf
    refine ⟨List.nodup_cons.mpr ⟨hmem, hk⟩, ?_, ?_⟩
    · refine List.nodup_cons.mpr ⟨?_, hv⟩
      intro hmem2
      obtain ⟨p, hp, hpe⟩ := List.mem_map.mp hmem2
      exact absurd (hpe ▸ hb p hp) (lt_irrefl _)
    · intro p hp
      rcases List.mem_cons.mp hp with h1 | h1
      · rw [h1]
        exact Nat.lt_succ_self _
      · exact Nat.lt_succ_of_lt (hb p h1)

/-- Re-acquisition by the same thread returns the identical cached
connection and leaves the registry unchanged. -/
theorem getConnection_idem (r : Registry) (tid : Nat) :
    getConnection (getConnection r tid).2 tid =
      ((getConnection r tid).1, (getConnection r tid).2) := by
  cases hl : r.conns.lookup tid with
  | some c =>
    have h1 := getConnection_cached r tid c hl
    rw [h1]
    exact h1
  | none =>
    have h1 := getConnection_fresh r tid ((lookup_eq_none_iff _ _).mp hl)
    rw [h1]
    have h2 : (Registry.mk ((tid, r.nextId) :: r.conns) (r.nextId + 1)).conns.lookup tid =
        some r.nextId := by
      simp [List.lookup]
    exact getConnection_cached _ tid _ h2

/-- Claim C4: the registry holds at most one entry per thread identifier:
acquisition preserves well-formedness and the one-entry-per-thread bound;
a thread's first acquisition creates a fresh connection and stores it
under the thread's identifier; a repeat acquisition returns the identical
cached connection and leaves the registry unchanged; sequential
acquisitions by two distinct threads new to the registry return distinct
connections and leave exactly one entry for each thread. -/
theorem getConnection_per_thread (r : Registry) (t1 t2 : Nat) :
    (Registry.WF r → Registry.WF (getConnection r t1).2) ∧
    (Registry.WF r →
      ∀ t, (getConnection r t1).2.conns.countP (fun p => p.1 == t) ≤ 1) ∧
    (t1 ∉ r.keys → getConnection r t1 =
      (r.nextId, { conns := (t1, r.nextId) :: r.conns, nextId := r.nextId + 1 })) ∧
    (getConnection (getConnection r t1).2 t1 =
      ((getConnection r t1).1, (getConnection r t1).2)) ∧
    (Registry.WF r → t1 ∉ r.keys → t2 ∉ r.keys → t1 ≠ t2 →
      (getConnection (getConnection r t1).2 t2).1 ≠ (getConnection r t1).1 ∧
      (getConnection (getConnection r t1).2 t2).2.conns.countP
        (fun p => p.1 == t1) = 1 ∧
      (getConnection (getConnection r t1).2 t2).2.conns.countP
        (fun p => p.1 == t2) = 1) := by
  refine ⟨getConnection_WF r t1, ?_, getConnection_fresh r t1, getConnection_idem r t1, ?_⟩
  · intro hwf t
    exact countP_key_le_one t _ (getConnection_WF r t1 hwf).1
  · intro hwf h1 h2 hne
    rw [getConnection_fresh r t1 h1]
    have h2b : t2 ∉ (Registry.mk ((t1, r.nextId) :: r.conns) (r.nextId + 1)).keys := by
      unfold Registry.keys
      rw [List.map_cons, List.mem_cons]
      push_neg
      exact ⟨fun he => hne he.symm, h2⟩
    rw [getConnection_fresh _ t2 h2b]
    refine ⟨Nat.succ_ne_self r.nextId, ?_, ?_⟩
    · rw [List.countP_cons, List.countP_cons, countP_key_eq_zero t1 r.conns h1]
      have b1 : (t2 == t1) = false := by
        simp
        exact fun he => hne he.symm
      simp [b1]
    · rw [List.countP_cons, List.countP_cons, countP_key_eq_zero t2 r.conns h2]
      have b1 : (t1 == t2) = false := by
        simp [hne]
      simp [b1]

/-- Witness for C4 at a concrete fresh registry and the thread
identifiers 10 and 11. -/
theorem getConnection_per_thread_witness :
    Registry.WF (getConnection (Registry.mk [] 0) 10).2 ∧
    getConnection (Registry.mk [] 0) 10 = (0, Registry.mk [(10, 0)] 1) ∧
    getConnection (getConnection (Registry.mk [] 0) 10).2 10 =
      ((getConnection (Registry.mk [] 0) 10).1, (getConnection (Registry.mk [] 0) 10).2) ∧
    (getConnection (getConnection (Registry.mk [] 0) 10).2 11).1 ≠
      (getConnection (Registry.mk [] 0) 10).1 := by
  have hwf : Registry.WF (Registry.mk [] 0) := by
    refine ⟨List.nodup_nil, List.nodup_nil, ?_⟩
    intro p hp
    simp at hp
  obtain ⟨a, b, c, d, e⟩ := getConnection_per_thread (Registry.mk [] 0) 10 11
  have hk10 : (10 : Nat) ∉ (Registry.mk [] 0).keys := by
    simp [Registry.keys]
  have hk11 : (11 : Nat) ∉ (Registry.mk [] 0).keys := by
    simp [Registry.keys]
  exact ⟨a hwf, c hk10, d, (e hwf hk10 hk11 (by decide)).1⟩

/-- After eviction, the thread owns no registry entry. -/
theorem evict_not_mem (r : Registry) (tid : Nat) : tid ∉ (evict r tid).keys := by
  unfold evict Registry.keys
  intro hmem
  obtain ⟨p, hp, he⟩ := List.mem_map.mp hmem
  have hf := (List.mem_filter.mp hp).2
  rw [he] at hf
  simp at hf

/-- Claim C5: if the body run on a thread's connection raises, the
connection is evicted (closed and removed) before the error propagates;
the next acquisition from the same thread creates and caches a fresh
connection of different identity, and the registry again holds exactly one
entry for that thread. -/
theorem withConnection_failure_recovery {α : Type} (r : Registry) (tid : Nat)
    (body : Nat → Option α) (hwf : Registry.WF r)
    (hfail : body (getConnection r tid).1 = none) :
    (withConnection r tid body).2 = none ∧
    tid ∉ (withConnection r tid body).1.keys ∧
    (getConnection (withConnection r tid body).1 tid).1 ≠ (getConnection r tid).1 ∧
    (getConnection (withConnection r tid body).1 tid).2.conns.countP
      (fun p => p.1 == tid) = 1 := by
  have hw : withConnection r tid body =
      (evict (getConnection r tid).2 tid, none) := by
    show (match body (getConnection r tid).1 with
          | some a => ((getConnection r tid).2, some a)
          | none => (evict (getConnection r tid).2 tid, none)) =
      (evict (getConnection r tid).2 tid, none)
    rw [hfail]
  rw [hw]
  have hE := getConnection_fresh (evict (getConnection r tid).2 tid) tid
    (evict_not_mem (getConnection r tid).2 tid)
  refine ⟨rfl, evict_not_mem _ tid, ?_, ?_⟩
  · rw [hE]
    cases hl : r.conns.lookup tid with
    | some c =>
      rw [getConnection_cached r tid c hl]
      have hc : c < r.nextId := hwf.2.2 (tid, c) (lookup_mem tid c r.conns hl)
      intro he
      have he2 : r.nextId = c := he
      omega
    | none =>
      rw [getConnection_fresh r tid ((lookup_eq_none_iff _ _).mp hl)]
      intro he
      have he2 : r.nextId + 1 = r.nextId := he
      omega
  · rw [hE]
    rw [List.countP_cons,
      countP_key_eq_zero tid (evict (getConnection r tid).2 tid).conns
        (evict_not_mem (getConnection r tid).2 tid)]
    simp

/-- Witness for C5: a single-entry registry whose connection body raises. -/
theorem withConnection_failure_recovery_witness :
    (withConnection (Registry.mk [(7, 0)] 1) 7 (fun _ => (none : Option Unit))).2 = none ∧
    7 ∉ (withConnection (Registry.mk [(7, 0)] 1) 7 (fun _ => (none : Option Unit))).1.keys ∧
    (getConnection (withConnection (Registry.mk [(7, 0)] 1) 7
        (fun _ => (none : Option Unit))).1 7).1 ≠
      (getConnection (Registry.mk [(7, 0)] 1) 7).1 ∧
    (getConnection (withConnection (Registry.mk [(7, 0)] 1) 7
        (fun _ => (none : Option Unit))).1 7).2.conns.countP (fun p => p.1 == 7) = 1 := by
  have hwf : Registry.WF (Registry.mk [(7, 0)] 1) := by
    refine ⟨?_, ?_, ?_⟩
    · simp [Registry.keys]
    · simp
    · intro p hp
      simp at hp
      rw [hp]
      decide
  exact withConnection_failure_recovery (Registry.mk [(7, 0)] 1) 7
    (fun _ => (none : Option Unit)) hwf rfl

/-- Claim C7: maintenance is best-effort and non-fatal.  For every
behaviour of the fallible sub-steps, `backup_database`, `optimize_database`
and `run_maintenance` complete without propagating an error (every result
is `.ok`): backup returns `True` exactly when both the directory creation
and the live copy succeed and `False` otherwise; optimize returns `True`
exactly when every optimization query succeeds and `False` otherwise; the
maintenance runner returns `True` whenever the connection was acquired —
regardless of how many individual maintenance statements fail, since it
continues past each failing statement — and `False` only when acquisition
itself failed. -/
theorem maintenance_nonfatal (m c : Except DbError Unit)
    (execO : String → Except DbError Unit) (acq : Except DbError Unit)
    (execM : String → DB → Option DB) (s : Session DB) :
    backupDatabase m c = .ok (exceptOk m && exceptOk c) ∧
    optimizeDatabase execO =
      .ok (exceptOk (runQueries execO DatabaseOptimizer.getOptimizationQueries)) ∧
    (runMaintenance acq execM s).2 = .ok (exceptOk acq) := by
  refine ⟨?_, ?_, ?_⟩
  · cases m with
    | error e => rfl
    | ok u =>
      cases c with
      | error e => rfl
      | ok v => rfl
  · cases hq : runQueries execO DatabaseOptimizer.getOptimizationQueries with
    | error e =>
      unfold optimizeDatabase
      rw [hq]
      rfl
    | ok u =>
      unfold optimizeDatabase
      rw [hq]
      rfl
  · cases acq with
    | error e => rfl
    | ok u => rfl

/-- Claim C8: `execute_query` never mutates the persisted store: for every
statement, parameter tuple and engine behaviour, the durable state after
the call equals the durable state before it, and the call returns exactly
the rows the engine produced for the statement (or propagates the
failure). -/
theorem executeQuery_pure {σ Op ρ : Type} (execR : Op → σ → Option (σ × ρ))
    (s : Session σ) (op : Op) :
    (executeQuery execR s op).1.committed = s.committed ∧
    (executeQuery execR s op).2 = (execR op s.current).map (fun p => p.2) := by
  unfold executeQuery
  cases h : execR op s.current with
  | none => exact ⟨rfl, rfl⟩
  | some p =>
    obtain ⟨d, rows⟩ := p
    exact ⟨rfl, rfl⟩

/-- Claim C9 counterexample: on a thread's first acquisition,
`get_connection` calls `_create_connection` inside the `with self._lock`
block (database_connection.py:151-153), so the lock IS held while the
physical connection is created (`sqlite3.connect`) and configured
(pragma I/O) — the claim that the lock is never held across I/O, in
particular not while a connection is created and configured, is false on
the cache-miss path. -/
theorem lock_held_during_connection_creation :
    ((underLock (executeQueryTrace false) 0).contains DbEvent.connectOp) = true ∧
    ((underLock (executeQueryTrace false) 0).contains DbEvent.pragmaOp) = true := by
  decide

/-- Claim C9 (amended): the registry lock is held for registry bookkeeping
and, on a thread's first acquisition only, also while the new physical
connection is created and configured; it is never held while a query
executes or rows are fetched, and on the cached (repeat-acquisition) path
nothing under the lock performs I/O. -/
theorem lock_scope (cached : Bool) :
    ((underLock (executeQueryTrace true) 0).all (fun e => !(isIoEvent e))) = true ∧
    ((underLock (executeQueryTrace cached) 0).contains DbEvent.queryOp) = false ∧
    ((underLock (executeQueryTrace cached) 0).contains DbEvent.fetchOp) = false ∧
    ((underLock (executeQueryTrace false) 0).contains DbEvent.connectOp) = true := by
  cases cached <;> decide

/-- Claim C10: the introspection calls never raise and their failure
answers coincide with their empty-store answers: `get_schema_version`
returns 0 both when the read fails (missing version table) and when the
version table is empty, and `get_database_stats` returns the empty
dictionary whenever any of its reads fails — so callers cannot tell a
failed read from an empty store. -/
theorem introspection_total_defaults (db : DB) :
    ("schema_version" ∈ db.tables → db.versionRows = [] → getSchemaVersion db = 0) ∧
    ("schema_version" ∉ db.tables → getSchemaVersion db = 0) ∧
    ("books" ∉ db.tables → getDatabaseStats db = none) ∧
    ("schema_version" ∉ db.tables → getDatabaseStats db = none) := by
  refine ⟨?_, ?_, ?_, ?_⟩
  · intro hs hrows
    unfold getSchemaVersion
    rw [if_pos hs]
    unfold maxVersion
    rw [hrows]
    rfl
  · intro hs
    unfold getSchemaVersion
    rw [if_neg hs]
  · intro hb
    unfold getDatabaseStats
    rw [if_neg hb]
  · intro hs
    unfold getDatabaseStats
    by_cases hb : "books" ∈ db.tables
    · rw [if_pos hb, if_neg hs]
    · rw [if_neg hb]

/-- Witness for C10 at concrete stores: a store with no tables at all
(both reads fail) and a freshly created version table with no recorded
migrations. -/
theorem introspection_total_defaults_witness :
    getSchemaVersion emptyDB = 0 ∧
    getDatabaseStats emptyDB = none ∧
    getSchemaVersion { emptyDB with tables := ["schema_version"] } = 0 :=
  ⟨(introspection_total_defaults emptyDB).2.1 (by decide),
   (introspection_total_defaults emptyDB).2.2.1 (by decide),
   (introspection_total_defaults { emptyDB with tables := ["schema_version"] }).1
     (by decide) rfl⟩

end Zeepubs
